import Mathlib

/-!
Verification of the support-ticket analytics pipeline
(`src/Visualization/app1.py`): dataset loading, filtering, summary
metrics, the two-group Welch comparison, and the threshold scan.

Modelling conventions, matching the pandas/scipy semantics the script
relies on:

* A dataframe is a `List Row`, one `Row` per ticket, in file order.
* A float column that can hold NaN is modelled as `Option ℚ`
  (`none` = NaN); a datetime column that can hold NaT is modelled as
  `Option Timestamp`.  Every comparison against `none` is `false`,
  exactly as NaN/NaT compare in pandas.
* The irrational parts of the Welch t-test (the square root in the
  standard error and the t-distribution tail probability turning
  `|t|` and the degrees of freedom into a two-sided p-value) are taken
  as function parameters `sq` and `sf`; every theorem below holds for
  every choice of these functions, so in particular for the real
  `sqrt`/`sf` that scipy evaluates numerically.  NaN propagation
  through the test is modelled exactly: `none` in, `none` out.
-/

namespace App

/-- A parsed `Created_At` value: the calendar date (as a day number)
together with the time of day.  The filter compares only `date`
(`.dt.date` in the script), ignoring `minuteOfDay`. -/
structure Timestamp where
  date : Int
  minuteOfDay : ℚ
deriving DecidableEq

/-- One row of the ticket dataframe.  `none` models a missing value
(NaN / NaT) in the corresponding column. -/
structure Row where
  ticketId : String
  createdAt : Option Timestamp
  channel : Option String
  issueType : Option String
  responseTime : Option ℚ
  resolutionTime : Option ℚ
  csatScore : Option ℚ
  csatBinary : Option ℚ
deriving DecidableEq

/-- `series.isin(allowed)` for one cell of a string column: a missing
cell is in no allowed set. -/
def chIsin (o : Option String) (allowed : List String) : Bool :=
  match o with
  | some s => allowed.contains s
  | none => false

/-- `ts.dt.date >= d0` for one cell: NaT never satisfies the bound. -/
def dateGe (o : Option Timestamp) (d0 : Int) : Bool :=
  match o with
  | some ts => decide (d0 ≤ ts.date)
  | none => false

/-- `ts.dt.date <= d1` for one cell: NaT never satisfies the bound. -/
def dateLe (o : Option Timestamp) (d1 : Int) : Bool :=
  match o with
  | some ts => decide (ts.date ≤ d1)
  | none => false

/-- The boolean `mask` of app1.py lines 46-51: channel membership,
issue-type membership, and the inclusive date-range bounds on the date
component of `Created_At`. -/
def rowMask (allowedCh allowedIt : List String) (d0 d1 : Int) (r : Row) : Bool :=
  chIsin r.channel allowedCh && chIsin r.issueType allowedIt &&
    dateGe r.createdAt d0 && dateLe r.createdAt d1

/-- `df_f = df[mask]` (line 52): the filtered subset. -/
def filterRows (allowedCh allowedIt : List String) (d0 d1 : Int)
    (rows : List Row) : List Row :=
  rows.filter (rowMask allowedCh allowedIt d0 d1)

theorem chIsin_iff (o : Option String) (A : List String) :
    chIsin o A = true ↔ ∃ s, o = some s ∧ s ∈ A := by
  cases o <;> simp [chIsin]

theorem dateBounds_iff (o : Option Timestamp) (d0 d1 : Int) :
    dateGe o d0 = true ∧ dateLe o d1 = true ↔
      ∃ ts, o = some ts ∧ d0 ≤ ts.date ∧ ts.date ≤ d1 := by
  cases o <;> simp [dateGe, dateLe]

theorem rowMask_iff (A I : List String) (d0 d1 : Int) (r : Row) :
    rowMask A I d0 d1 r = true ↔
      (∃ c, r.channel = some c ∧ c ∈ A) ∧
      (∃ t, r.issueType = some t ∧ t ∈ I) ∧
      (∃ ts, r.createdAt = some ts ∧ d0 ≤ ts.date ∧ ts.date ≤ d1) := by
  unfold rowMask
  simp only [Bool.and_eq_true, and_assoc]
  rw [chIsin_iff, chIsin_iff, dateBounds_iff]

/-- C1: a row is in the filtered subset iff it is in the dataset, its
channel is allowed, its issue type is allowed, and its creation date
(the date component only) lies in the inclusive interval
`[d0, d1]`; in particular a row with a missing creation timestamp is
never included, because the missing value satisfies neither date
bound. -/
theorem filter_mem_iff (A I : List String) (d0 d1 : Int)
    (rows : List Row) (r : Row) :
    (r ∈ filterRows A I d0 d1 rows ↔
      r ∈ rows ∧
        (∃ c, r.channel = some c ∧ c ∈ A) ∧
        (∃ t, r.issueType = some t ∧ t ∈ I) ∧
        (∃ ts, r.createdAt = some ts ∧ d0 ≤ ts.date ∧ ts.date ≤ d1)) ∧
    (r.createdAt = none → r ∉ filterRows A I d0 d1 rows) := by
  constructor
  · rw [filterRows, List.mem_filter, rowMask_iff]
  · intro hna hmem
    rw [filterRows, List.mem_filter, rowMask_iff] at hmem
    rcases hmem.2.2.2 with ⟨ts, hts, -⟩
    rw [hna] at hts
    exact Option.noConfusion hts

/-- C7: filtering is idempotent — applying the same mask to its own
output returns the same subset. -/
theorem filter_idem (A I : List String) (d0 d1 : Int) (rows : List Row) :
    filterRows A I d0 d1 (filterRows A I d0 d1 rows) =
      filterRows A I d0 d1 rows := by
  unfold filterRows
  rw [List.filter_filter]
  exact List.filter_congr fun r _ => Bool.and_self (rowMask A I d0 d1 r)

/-- `some` the list of values when no entry is missing, `none` as soon
as one entry is NaN: numpy/scipy aggregations propagate NaN. -/
def allSome : List (Option ℚ) → Option (List ℚ)
  | [] => some []
  | none :: _ => none
  | some x :: xs => (allSome xs).map (fun ys => x :: ys)

/-- `np.mean` over a float column: NaN when the column is empty or
holds a NaN, the arithmetic mean otherwise. -/
def npMean (xs : List (Option ℚ)) : Option ℚ :=
  match allSome xs with
  | none => none
  | some ys => if ys.length = 0 then none else some (ys.sum / (ys.length : ℚ))

/-- Sample variance with one delta degree of freedom, as scipy's
t-test uses: NaN when fewer than two values or any value is NaN. -/
def npVar (xs : List (Option ℚ)) : Option ℚ :=
  match allSome xs with
  | none => none
  | some ys =>
      if ys.length ≤ 1 then none
      else
        some (((ys.map (fun y => (y - ys.sum / (ys.length : ℚ)) ^ 2)).sum) /
          ((ys.length : ℚ) - 1))

/-- `Series.mean()` in pandas: NaN entries are skipped; NaN only when
nothing remains. -/
def pdMean (xs : List (Option ℚ)) : Option ℚ :=
  let ys := xs.filterMap id
  if ys.length = 0 then none else some (ys.sum / (ys.length : ℚ))

/-- Welch's t statistic for two samples, with the square root of the
pooled standard error abstracted as `sq`: the difference of the group
means over `sq` of `v1/n1 + v2/n2`.  `none` (NaN) as soon as a mean or
a variance is NaN — in particular whenever a group is empty or a
singleton, matching `scipy.stats.ttest_ind(..., equal_var=False)`. -/
def welchStat (sq : ℚ → ℚ) (a b : List (Option ℚ)) : Option ℚ :=
  match npMean a, npMean b, npVar a, npVar b with
  | some m1, some m2, some v1, some v2 =>
      some ((m1 - m2) / sq (v1 / (a.length : ℚ) + v2 / (b.length : ℚ)))
  | _, _, _, _ => none

/-- The Welch–Satterthwaite degrees of freedom from the two sample
variances and sizes. -/
def welchDfFormula (v1 : ℚ) (n1 : Nat) (v2 : ℚ) (n2 : Nat) : ℚ :=
  (v1 / (n1 : ℚ) + v2 / (n2 : ℚ)) ^ 2 /
    ((v1 / (n1 : ℚ)) ^ 2 / ((n1 : ℚ) - 1) + (v2 / (n2 : ℚ)) ^ 2 / ((n2 : ℚ) - 1))

/-- Degrees of freedom of the Welch test; NaN when a variance is NaN. -/
def welchDf (a b : List (Option ℚ)) : Option ℚ :=
  match npVar a, npVar b with
  | some v1, some v2 => some (welchDfFormula v1 a.length v2 b.length)
  | _, _ => none

/-- The two-sided p-value: the t-distribution tail function `sf`
applied to `|t|` and the degrees of freedom (two-sidedness folded into
`sf`).  NaN when the statistic is NaN. -/
def welchP (sq : ℚ → ℚ) (sf : ℚ → ℚ → ℚ) (a b : List (Option ℚ)) : Option ℚ :=
  match welchStat sq a b, welchDf a b with
  | some t, some d => some (sf |t| d)
  | _, _ => none

/-- What the A/B tab reports for one tested comparison: group sizes,
group means (pandas mean, NaN-skipping), the Welch statistic and the
two-sided p-value. -/
structure TestRes where
  nA : Nat
  nB : Nat
  meanA : Option ℚ
  meanB : Option ℚ
  t : Option ℚ
  p : Option ℚ
deriving DecidableEq

/-- Outcome of the A/B tab: either the insufficient-data warning or a
computed test. -/
inductive ABOutcome where
  | insufficient
  | tested (res : TestRes)
deriving DecidableEq

/-- `ab_df` (line 112): the rows whose channel is one of the two group
labels. -/
def abRows (lA lB : String) (rows : List Row) : List Row :=
  rows.filter (fun r => chIsin r.channel [lA, lB])

/-- The CSAT scores of the rows carrying one group label
(lines 117-118). -/
def groupScores (lbl : String) (rows : List Row) : List (Option ℚ) :=
  (rows.filter (fun r => r.channel == some lbl)).map (fun r => r.csatScore)

/-- The A/B comparison of lines 112-132: restrict to the two labels,
guard on the combined size, then compute sizes, means, the Welch
statistic and the p-value of the two score samples. -/
def compareGroups (sq : ℚ → ℚ) (sf : ℚ → ℚ → ℚ) (lA lB : String)
    (rows : List Row) : ABOutcome :=
  let ab := abRows lA lB rows
  if ab.length < 2 then ABOutcome.insufficient
  else
    let a := groupScores lA ab
    let b := groupScores lB ab
    ABOutcome.tested
      { nA := a.length, nB := b.length, meanA := pdMean a, meanB := pdMean b,
        t := welchStat sq a b, p := welchP sq sf a b }

/-- Whether the outcome is the insufficient-data warning. -/
def isInsufficient : ABOutcome → Bool
  | ABOutcome.insufficient => true
  | ABOutcome.tested _ => false

/-- The statistic of a tested outcome, `none` otherwise. -/
def outcomeT : ABOutcome → Option ℚ
  | ABOutcome.insufficient => none
  | ABOutcome.tested res => res.t

/-- The p-value of a tested outcome, `none` otherwise. -/
def outcomeP : ABOutcome → Option ℚ
  | ABOutcome.insufficient => none
  | ABOutcome.tested res => res.p

/-- `p_val < 0.05` on a float that may be NaN: NaN compares false. -/
def nanLt (x : Option ℚ) (c : ℚ) : Bool :=
  match x with
  | some v => decide (v < c)
  | none => false

/-- The significant-difference message of line 130. -/
def sigMsg : String := "significant difference"

/-- The no-significant-difference message of line 132. -/
def noSigMsg : String := "no significant difference"

/-- The verdict of lines 129-132: significant exactly when
`p_val < 0.05`, with the fixed threshold 1/20. -/
def verdict (p : Option ℚ) : String :=
  if nanLt p (1 / 20) then sigMsg else noSigMsg

/-- The verdict the tab shows: none when the guard fired, the
p-value verdict otherwise. -/
def outcomeVerdict : ABOutcome → Option String
  | ABOutcome.insufficient => none
  | ABOutcome.tested res => some (verdict res.p)

/-- The combined number of rows matching either group label. -/
def abCount (lA lB : String) (rows : List Row) : Nat :=
  rows.countP (fun r => chIsin r.channel [lA, lB])

/-- C2: the comparison reports insufficient data exactly when the
combined number of rows matching the two group labels is below 2, and
it computes the Welch test exactly when that number is at least 2 —
so a combined size of exactly 2 already proceeds to the test. -/
theorem compareGroups_guard (sq : ℚ → ℚ) (sf : ℚ → ℚ → ℚ) (lA lB : String)
    (rows : List Row) :
    (compareGroups sq sf lA lB rows = ABOutcome.insufficient ↔
      abCount lA lB rows < 2) ∧
    ((∃ res, compareGroups sq sf lA lB rows = ABOutcome.tested res) ↔
      2 ≤ abCount lA lB rows) := by
  have hlen : (abRows lA lB rows).length = abCount lA lB rows := by
    rw [abCount, abRows, List.countP_eq_length_filter]
  simp only [compareGroups]
  rw [hlen]
  by_cases h : abCount lA lB rows < 2
  · simp [h]
  · simp [h, Nat.le_of_not_lt h]

theorem chIsin_pair_comm (o : Option String) (lA lB : String) :
    chIsin o [lA, lB] = chIsin o [lB, lA] := by
  cases o with
  | none => rfl
  | some s => simp [chIsin, List.contains_cons, Bool.or_comm]

theorem abRows_comm (lA lB : String) (rows : List Row) :
    abRows lB lA rows = abRows lA lB rows :=
  List.filter_congr fun r _ => chIsin_pair_comm r.channel lB lA

theorem welchStat_swap (sq : ℚ → ℚ) (a b : List (Option ℚ)) :
    welchStat sq b a = (welchStat sq a b).map (fun x => -x) := by
  unfold welchStat
  cases h1 : npMean a <;> cases h2 : npMean b <;>
    cases h3 : npVar a <;> cases h4 : npVar b <;>
      simp only [h1, h2, h3, h4, Option.map_none', Option.map_some'] <;>
    first
      | rfl
      | rw [add_comm, ← neg_div, neg_sub]

theorem welchDfFormula_symm (v1 : ℚ) (n1 : Nat) (v2 : ℚ) (n2 : Nat) :
    welchDfFormula v2 n2 v1 n1 = welchDfFormula v1 n1 v2 n2 := by
  unfold welchDfFormula
  ring

theorem welchDf_swap (a b : List (Option ℚ)) : welchDf b a = welchDf a b := by
  unfold welchDf
  cases h3 : npVar a <;> cases h4 : npVar b <;> simp only [h3, h4]
  rw [welchDfFormula_symm]

theorem welchP_swap (sq : ℚ → ℚ) (sf : ℚ → ℚ → ℚ) (a b : List (Option ℚ)) :
    welchP sq sf b a = welchP sq sf a b := by
  unfold welchP
  rw [welchStat_swap, welchDf_swap]
  cases welchStat sq a b <;> cases welchDf a b <;>
    simp only [Option.map_none', Option.map_some'] <;>
    first
      | rfl
      | rw [abs_neg]

/-- Structural form of the label-swap symmetry: swapping the two group
labels leaves the guard decision unchanged and, on a tested outcome,
swaps the sizes and means, negates the statistic, and keeps the
p-value. -/
theorem compareGroups_swap (sq : ℚ → ℚ) (sf : ℚ → ℚ → ℚ) (lA lB : String)
    (rows : List Row) :
    compareGroups sq sf lB lA rows =
      match compareGroups sq sf lA lB rows with
      | ABOutcome.insufficient => ABOutcome.insufficient
      | ABOutcome.tested res =>
          ABOutcome.tested
            { nA := res.nB, nB := res.nA, meanA := res.meanB, meanB := res.meanA,
              t := res.t.map (fun x => -x), p := res.p } := by
  simp only [compareGroups]
  rw [abRows_comm]
  by_cases h : (abRows lA lB rows).length < 2
  · simp only [if_pos h]
  · simp only [if_neg h]
    rw [welchStat_swap sq (groupScores lA (abRows lA lB rows))
          (groupScores lB (abRows lA lB rows)),
        welchP_swap sq sf (groupScores lA (abRows lA lB rows))
          (groupScores lB (abRows lA lB rows))]

/-- C6: on every subset where the comparison actually computes the
Welch test, exchanging the two group labels negates the test statistic
(`none`, i.e. NaN, stays `none`), leaves the two-sided p-value
unchanged, and therefore leaves the displayed significance verdict
unchanged (the sizes and means swap accordingly). -/
theorem compareGroups_label_symm (sq : ℚ → ℚ) (sf : ℚ → ℚ → ℚ)
    (lA lB : String) (rows : List Row) (res : TestRes)
    (h : compareGroups sq sf lA lB rows = ABOutcome.tested res) :
    compareGroups sq sf lB lA rows =
      ABOutcome.tested
        { nA := res.nB, nB := res.nA, meanA := res.meanB, meanB := res.meanA,
          t := res.t.map (fun x => -x), p := res.p } ∧
    outcomeVerdict (compareGroups sq sf lB lA rows) =
      outcomeVerdict (compareGroups sq sf lA lB rows) := by
  have hs := compareGroups_swap sq sf lA lB rows
  rw [h] at hs
  exact ⟨hs, by rw [hs, h]; rfl⟩

/-- A fixed label, score and row shape for concrete evaluations. -/
def chatbotL : String := "Chatbot"

def agentL : String := "Live Agent"

def issueL : String := "Payment"

def sq0 : ℚ → ℚ := fun q => q

def sf0 : ℚ → ℚ → ℚ := fun _ _ => 1 / 2

def mkRow (ch : String) (score : ℚ) : Row :=
  { ticketId := "T", createdAt := some ⟨0, 0⟩, channel := some ch,
    issueType := some issueL, responseTime := some 1,
    resolutionTime := some 100, csatScore := some score, csatBinary := some 1 }

def rows4 : List Row :=
  [mkRow chatbotL 5, mkRow chatbotL 4, mkRow agentL 1, mkRow agentL 2]

def res4 : TestRes :=
  { nA := 2, nB := 2, meanA := some (9 / 2), meanB := some (3 / 2),
    t := some 6, p := some (1 / 2) }

/-- Concrete evaluation of the comparison on `rows4`, used to discharge
the reached-the-test hypotheses at a concrete input. -/
theorem rows4_tested :
    compareGroups sq0 sf0 chatbotL agentL rows4 = ABOutcome.tested res4 := by
  have hne1 : ¬ ("Live Agent" = "Chatbot") := by decide
  have hne2 : ¬ ("Chatbot" = "Live Agent") := by decide
  norm_num [compareGroups, abRows, groupScores, chIsin, mkRow, rows4, res4,
    sq0, sf0, chatbotL, agentL, issueL, npMean, npVar, pdMean, allSome,
    welchStat, welchDf, welchDfFormula, welchP, List.filter_cons,
    List.filterMap_cons, List.filterMap_nil, hne1, hne2]

theorem compareGroups_label_symm_witness :
    compareGroups sq0 sf0 agentL chatbotL rows4 =
      ABOutcome.tested
        { nA := res4.nB, nB := res4.nA, meanA := res4.meanB, meanB := res4.meanA,
          t := res4.t.map (fun x => -x), p := res4.p } ∧
    outcomeVerdict (compareGroups sq0 sf0 agentL chatbotL rows4) =
      outcomeVerdict (compareGroups sq0 sf0 chatbotL agentL rows4) :=
  compareGroups_label_symm sq0 sf0 chatbotL agentL rows4 res4 rows4_tested

theorem nanLt_iff (x : Option ℚ) (c : ℚ) :
    nanLt x c = true ↔ ∃ v, x = some v ∧ v < c := by
  cases x <;> simp [nanLt]

/-- C4: for every comparison that reaches the statistical test, the
verdict is the significant-difference message exactly when the
computed p-value is (a number) strictly less than the fixed constant
1/20 = 0.05, and the no-significant-difference message exactly
otherwise (in particular for a NaN p-value). -/
theorem verdict_iff_pvalue (sq : ℚ → ℚ) (sf : ℚ → ℚ → ℚ)
    (lA lB : String) (rows : List Row) (res : TestRes)
    (h : compareGroups sq sf lA lB rows = ABOutcome.tested res) :
    (verdict res.p = sigMsg ↔ ∃ x, res.p = some x ∧ x < 1 / 20) ∧
    (verdict res.p = noSigMsg ↔ ¬ ∃ x, res.p = some x ∧ x < 1 / 20) := by
  have hmsg : ¬ (sigMsg = noSigMsg) := by decide
  have hmsg2 : ¬ (noSigMsg = sigMsg) := by decide
  rw [verdict]
  split_ifs with hp
  · have hex := (nanLt_iff res.p (1 / 20)).mp hp
    exact ⟨⟨fun _ => hex, fun _ => rfl⟩,
      ⟨fun he => absurd he hmsg, fun hne => absurd hex hne⟩⟩
  · have hex : ¬ ∃ x, res.p = some x ∧ x < 1 / 20 :=
      fun hc => hp ((nanLt_iff _ _).mpr hc)
    exact ⟨⟨fun he => absurd he hmsg2, fun hc => absurd hc hex⟩,
      ⟨fun _ => hex, fun _ => rfl⟩⟩

theorem verdict_iff_pvalue_witness :
    (verdict res4.p = sigMsg ↔ ∃ x, res4.p = some x ∧ x < 1 / 20) ∧
    (verdict res4.p = noSigMsg ↔ ¬ ∃ x, res4.p = some x ∧ x < 1 / 20) :=
  verdict_iff_pvalue sq0 sf0 chatbotL agentL rows4 res4 rows4_tested

theorem welchStat_right_nil (sq : ℚ → ℚ) (a : List (Option ℚ)) :
    welchStat sq a [] = none := by
  have hm : npMean ([] : List (Option ℚ)) = none := rfl
  have hv : npVar ([] : List (Option ℚ)) = none := rfl
  cases hma : npMean a <;> cases hva : npVar a <;>
    simp [welchStat, hma, hva, hm, hv]

theorem welchP_right_nil (sq : ℚ → ℚ) (sf : ℚ → ℚ → ℚ) (a : List (Option ℚ)) :
    welchP sq sf a [] = none := by
  cases hd : welchDf a [] <;> simp [welchP, welchStat_right_nil, hd]

/-- C9: the insufficient-data guard looks only at the combined row
count of the two labels.  When at least 2 rows match the labels but
the second group is empty, the comparison still runs the Welch test:
the outcome is a tested result (not the insufficient-data report)
whose statistic and p-value are both NaN (`none`), and the NaN p-value
falls through to the no-significant-difference branch because
`NaN < 0.05` is false. -/
theorem compareGroups_empty_group (sq : ℚ → ℚ) (sf : ℚ → ℚ → ℚ)
    (lA lB : String) (rows : List Row)
    (h2 : 2 ≤ abCount lA lB rows)
    (hb : groupScores lB (abRows lA lB rows) = []) :
    isInsufficient (compareGroups sq sf lA lB rows) = false ∧
    outcomeT (compareGroups sq sf lA lB rows) = none ∧
    outcomeP (compareGroups sq sf lA lB rows) = none ∧
    outcomeVerdict (compareGroups sq sf lA lB rows) = some noSigMsg := by
  have hlen : (abRows lA lB rows).length = abCount lA lB rows := by
    rw [abCount, abRows, List.countP_eq_length_filter]
  have hguard : ¬ (abRows lA lB rows).length < 2 := by
    rw [hlen]; omega
  simp only [compareGroups]
  rw [hb, if_neg hguard]
  refine ⟨rfl, ?_, ?_, ?_⟩
  · simp [outcomeT, welchStat_right_nil]
  · simp [outcomeP, welchP_right_nil]
  · simp [outcomeVerdict, welchP_right_nil, verdict, nanLt]

def rows2 : List Row := [mkRow chatbotL 5, mkRow chatbotL 4]

theorem compareGroups_empty_group_witness :
    isInsufficient (compareGroups sq0 sf0 chatbotL agentL rows2) = false ∧
    outcomeT (compareGroups sq0 sf0 chatbotL agentL rows2) = none ∧
    outcomeP (compareGroups sq0 sf0 chatbotL agentL rows2) = none ∧
    outcomeVerdict (compareGroups sq0 sf0 chatbotL agentL rows2) = some noSigMsg :=
  compareGroups_empty_group sq0 sf0 chatbotL agentL rows2 (by decide) (by decide)

/-- `Resolution_Time_Minutes > threshold` for one cell: a missing
(NaN) resolution time never satisfies the strict comparison. -/
def resGt (o : Option ℚ) (T : ℚ) : Bool :=
  match o with
  | some v => decide (T < v)
  | none => false

/-- `anomalies = df_f[df_f["Resolution_Time_Minutes"] > threshold]`
(line 144). -/
def scanThreshold (rows : List Row) (T : ℚ) : List Row :=
  rows.filter (fun r => resGt r.resolutionTime T)

/-- `len(anomalies)` (line 146): the reported number of matches,
computed before any display cap. -/
def scanCount (rows : List Row) (T : ℚ) : Nat :=
  (scanThreshold rows T).length

/-- The fixed column projection of lines 150-151: identifier,
timestamp, channel, issue type, response time, resolution time,
score. -/
structure AnomalyRow where
  ticketId : String
  createdAt : Option Timestamp
  channel : Option String
  issueType : Option String
  responseTime : Option ℚ
  resolutionTime : Option ℚ
  csatScore : Option ℚ
deriving DecidableEq

/-- One row of the anomaly table: the seven displayed columns. -/
def projectRow (r : Row) : AnomalyRow :=
  { ticketId := r.ticketId, createdAt := r.createdAt, channel := r.channel,
    issueType := r.issueType, responseTime := r.responseTime,
    resolutionTime := r.resolutionTime, csatScore := r.csatScore }

/-- `anomalies[cols].head(20)` (lines 149-152): the projected view,
capped at the first 20 matches in the subset's order. -/
def anomalyView (rows : List Row) (T : ℚ) : List AnomalyRow :=
  ((scanThreshold rows T).map projectRow).take 20

theorem resGt_iff (o : Option ℚ) (T : ℚ) :
    resGt o T = true ↔ ∃ v, o = some v ∧ T < v := by
  cases o <;> simp [resGt]

/-- C3: the threshold scan selects exactly the rows whose resolution
time is strictly greater than the threshold (a row equal to the
threshold is excluded); the reported count is the number of qualifying
rows in the whole subset, independent of the display cap; and the
displayed view is the projection onto the seven fixed columns of at
most the first 20 qualifying rows, in the subset's existing order. -/
theorem scan_threshold_spec (rows : List Row) (T : ℚ) (r : Row) :
    (r ∈ scanThreshold rows T ↔
      r ∈ rows ∧ ∃ v, r.resolutionTime = some v ∧ T < v) ∧
    (r.resolutionTime = some T → r ∉ scanThreshold rows T) ∧
    scanCount rows T = rows.countP (fun x => resGt x.resolutionTime T) ∧
    (anomalyView rows T).length ≤ 20 ∧
    (∀ i : Nat, (anomalyView rows T)[i]? =
      if i < 20 then ((scanThreshold rows T).map projectRow)[i]? else none) := by
  refine ⟨?_, ?_, ?_, ?_, ?_⟩
  · rw [scanThreshold, List.mem_filter, resGt_iff]
  · intro hT hmem
    rw [scanThreshold, List.mem_filter, resGt_iff] at hmem
    rcases hmem.2 with ⟨v, hv, hlt⟩
    rw [hT] at hv
    cases Option.some_inj.mp hv
    exact lt_irrefl T hlt
  · exact (List.countP_eq_length_filter _ _).symm
  · exact List.length_take_le 20 _
  · intro i
    exact List.getElem?_take

/-- C10: a row with a missing (NaN) resolution time is never selected
by the threshold scan, and the reported count is unchanged if rows
with a missing resolution time are removed first — missing rows are
never counted. -/
theorem scan_missing_resolution (rows : List Row) (T : ℚ) :
    (∀ r : Row, r.resolutionTime = none → r ∉ scanThreshold rows T) ∧
    scanCount rows T =
      scanCount (rows.filter (fun r => r.resolutionTime.isSome)) T := by
  constructor
  · intro r hna hmem
    rw [scanThreshold, List.mem_filter, resGt_iff] at hmem
    rcases hmem.2 with ⟨v, hv, -⟩
    rw [hna] at hv
    exact Option.noConfusion hv
  · unfold scanCount scanThreshold
    rw [List.filter_filter]
    have : List.filter
        (fun a => resGt a.resolutionTime T && a.resolutionTime.isSome) rows =
        List.filter (fun a => resGt a.resolutionTime T) rows := by
      refine List.filter_congr fun r _ => ?_
      cases hr : r.resolutionTime <;> simp [resGt, hr]
    rw [this]

/-- The four KPI metrics of lines 62-72. -/
structure Metrics where
  avgCsat : Option ℚ
  avgResolution : Option ℚ
  ticketsPerDay : Option ℚ
  happyRate : Option ℚ
deriving DecidableEq

/-- `df_f.groupby(df_f["Created_At"].dt.date).size().mean()` (line 68):
group the rows by calendar date (rows with a missing timestamp are
dropped by the groupby), count per date, take the mean of the counts;
NaN when there is no group. -/
def ticketsPerDayCalc (rows : List Row) : Option ℚ :=
  let ds := (rows.filterMap (fun r => r.createdAt.map (fun ts => ts.date))).dedup
  if ds.length = 0 then none
  else
    some ((ds.map (fun d =>
      ((rows.countP (fun r =>
        r.createdAt.map (fun ts => ts.date) == some d)) : ℚ))).sum /
      (ds.length : ℚ))

/-- The Metrics Calculator (lines 62-72): mean CSAT, mean resolution
time, average tickets per day, and the happy-customer percentage (mean
of the binary flag times 100).  All four are pandas means, which skip
NaN entries and return NaN on an empty column. -/
def computeMetrics (rows : List Row) : Metrics :=
  { avgCsat := pdMean (rows.map (fun r => r.csatScore)),
    avgResolution := pdMean (rows.map (fun r => r.resolutionTime)),
    ticketsPerDay := ticketsPerDayCalc rows,
    happyRate := (pdMean (rows.map (fun r => r.csatBinary))).map (fun m => m * 100) }

/-- C5: on the empty filtered subset every metric is the NaN
"no data" marker.  `computeMetrics` is a total function — the
aggregations cannot raise and have no side effects — and each of the
four fields degrades to `none` rather than failing. -/
theorem computeMetrics_empty :
    computeMetrics [] =
      { avgCsat := none, avgResolution := none,
        ticketsPerDay := none, happyRate := none } := rfl

/-- One raw CSV record before timestamp parsing: `Created_At` is still
the unparsed string. -/
structure RawRow where
  ticketId : String
  createdAtRaw : String
  channel : Option String
  issueType : Option String
  responseTime : Option ℚ
  resolutionTime : Option ℚ
  csatScore : Option ℚ
  csatBinary : Option ℚ
deriving DecidableEq

/-- Conversion of one raw record: every column is kept as is, and the
timestamp column is replaced by the result of `parse`, an
`Option`-valued parser modelling
`pd.to_datetime(..., errors="coerce")` — a failed parse yields `none`
(NaT) instead of raising. -/
def rowOfRaw (parse : String → Option Timestamp) (rr : RawRow) : Row :=
  { ticketId := rr.ticketId, createdAt := parse rr.createdAtRaw,
    channel := rr.channel, issueType := rr.issueType,
    responseTime := rr.responseTime, resolutionTime := rr.resolutionTime,
    csatScore := rr.csatScore, csatBinary := rr.csatBinary }

/-- `load_data` (lines 12-16): read the rows and coerce the
`Created_At` column, keeping every row. -/
def loadData (parse : String → Option Timestamp) (raw : List RawRow) : List Row :=
  raw.map (rowOfRaw parse)

/-- C8: the loader keeps every input row — the loaded dataset has the
same length as the input, position by position — and each loaded row's
timestamp is exactly the parse result of its raw value, so an
unparsable value (where `parse` yields `none`) becomes a missing
timestamp while the row itself, with all its other columns, is kept. -/
theorem load_data_spec (parse : String → Option Timestamp) (raw : List RawRow) :
    (loadData parse raw).length = raw.length ∧
    (∀ i : Nat, (loadData parse raw)[i]? = (raw[i]?).map (rowOfRaw parse)) ∧
    (∀ rr : RawRow, (rowOfRaw parse rr).createdAt = parse rr.createdAtRaw ∧
      (rowOfRaw parse rr).ticketId = rr.ticketId ∧
      (rowOfRaw parse rr).channel = rr.channel ∧
      (rowOfRaw parse rr).resolutionTime = rr.resolutionTime ∧
      (rowOfRaw parse rr).csatScore = rr.csatScore) :=
  ⟨by simp [loadData],
   fun i => List.getElem?_map (rowOfRaw parse) raw i,
   fun rr => ⟨rfl, rfl, rfl, rfl, rfl⟩⟩

end App
